import Mathlib

/-!
# Service handler of the mesh controller

A shallow embedding of `pkg/controller/service/service.go`: the reconcile
function `Handle` of the Service controller and the sub-reconciliations it
runs (`handleDeployment`, `handleAutoscalePolicy`, `handleK8sService`,
`updateOwnerCell`, `updateStatus`).

The handler talks to listers (cache reads) and to clients (remote writes).
Every such call is an input of the model: the handler record holds one
function per call, giving the call's answer, and every function of the
handler returns, next to its Go result, the list of the calls it issued, in
order. A Go `(obj, err)` answer is an `Except Error obj`; a Go `error`
result is an `Option Error` (`none` is `nil`). The `*v1alpha1.Service`
that the Go code mutates in place is passed and returned explicitly.
-/

namespace MeshController

/-! ## Data model -/

/-- An API error, reduced to what `errors.IsNotFound` inspects: the status
reason, and a message. -/
structure Error where
  reason : String
  message : String
deriving DecidableEq

/-- The `errors.IsNotFound` of apimachinery on a non-nil error: the reason of
the error is `metav1.StatusReasonNotFound`, the string "NotFound". -/
def IsNotFound (err : Error) : Bool :=
  decide (err.reason = "NotFound")

/-- The `metav1.OwnerReference`, with the fields `GetControllerOf` reads.
`Controller` is a `*bool` in Go. -/
structure OwnerReference where
  Name : String
  Controller : Option Bool
deriving DecidableEq

/-- Modelled from the spec: the autoscaling intent of a Service
(`Spec.Autoscaling`, a pointer in `pkg/apis/mesh/v1alpha1`, which is not
among the sources). Only its presence is read by the handler; the payload
stands for the declared policy. -/
structure AutoscalingSpec where
  policy : String
deriving DecidableEq

/-- Modelled from the spec: the Service spec of `pkg/apis/mesh/v1alpha1`,
with the optional autoscaling intent the handler reads and a payload for the
container configuration. -/
structure ServiceSpec where
  container : String
  Autoscaling : Option AutoscalingSpec
deriving DecidableEq

/-- Modelled from the spec: the Service status of `pkg/apis/mesh/v1alpha1`:
`AvailableReplicas` (an int32), `HostName` and `OwnerCell`. -/
structure ServiceStatus where
  AvailableReplicas : Int
  HostName : String
  OwnerCell : String
deriving DecidableEq

/-- Modelled from the spec: the Service resource of `pkg/apis/mesh/v1alpha1`:
identity, owner references, spec and status. -/
structure Service where
  Namespace : String
  Name : String
  OwnerReferences : List OwnerReference
  Spec : ServiceSpec
  Status : ServiceStatus
deriving DecidableEq

/-- The status of an `appsv1.Deployment`, with the field the handler reads. -/
structure DeploymentStatus where
  AvailableReplicas : Int
deriving DecidableEq

/-- The `appsv1.Deployment` child resource. -/
structure Deployment where
  Namespace : String
  Name : String
  Status : DeploymentStatus
deriving DecidableEq

/-- The `corev1.Service` child resource (the network endpoint). -/
structure K8sService where
  Namespace : String
  Name : String
deriving DecidableEq

/-- Modelled from the spec: the AutoscalePolicy resource of
`pkg/apis/mesh/v1alpha1`: identity, a payload for its spec, and the `Status`
string ("Ready" once provisioned, otherwise unset). -/
structure AutoscalePolicy where
  Namespace : String
  Name : String
  policy : String
  Status : String
deriving DecidableEq

/-- One call issued by the handler: a lister read, or a client create or
update, with the namespace it is addressed to and its argument. -/
inductive Call where
  | getService (ns name : String)
  | getDeployment (ns name : String)
  | createDeployment (ns : String) (obj : Deployment)
  | getAutoscalePolicy (ns name : String)
  | createAutoscalePolicy (ns : String) (obj : AutoscalePolicy)
  | updateAutoscalePolicy (ns : String) (obj : AutoscalePolicy)
  | getK8sService (ns name : String)
  | createK8sService (ns : String) (obj : K8sService)
  | updateService (ns : String) (obj : Service)
deriving DecidableEq

/-- A client create call. -/
def Call.isCreate : Call → Bool
  | .createDeployment _ _ => true
  | .createAutoscalePolicy _ _ => true
  | .createK8sService _ _ => true
  | _ => false

/-- A client update call. -/
def Call.isUpdate : Call → Bool
  | .updateAutoscalePolicy _ _ => true
  | .updateService _ _ => true
  | _ => false

/-- A Service update call (the status write of `updateStatus`). -/
def Call.isServiceUpdate : Call → Bool
  | .updateService _ _ => true
  | _ => false

/-- A call of the AutoscalePolicy lister or client. -/
def Call.isAutoscalePolicyCall : Call → Bool
  | .getAutoscalePolicy _ _ => true
  | .createAutoscalePolicy _ _ => true
  | .updateAutoscalePolicy _ _ => true
  | _ => false

/-- A create call for a Deployment. -/
def Call.isDeploymentCreate : Call → Bool
  | .createDeployment _ _ => true
  | _ => false

/-- A create call for a NetworkEndpoint (a `corev1.Service`). -/
def Call.isK8sServiceCreate : Call → Bool
  | .createK8sService _ _ => true
  | _ => false

/-- A create call for an AutoscalePolicy. -/
def Call.isAutoscalePolicyCreate : Call → Bool
  | .createAutoscalePolicy _ _ => true
  | _ => false

/-- The step of `Handle` a call belongs to: 0 for the Service reads of
`Handle` and `updateStatus`, 1 for the Deployment sync, 2 for the
AutoscalePolicy sync, 3 for the NetworkEndpoint sync, 4 for the Service
status write. -/
def Call.step : Call → Nat
  | .getService _ _ => 0
  | .getDeployment _ _ => 1
  | .createDeployment _ _ => 1
  | .getAutoscalePolicy _ _ => 2
  | .createAutoscalePolicy _ _ => 2
  | .updateAutoscalePolicy _ _ => 2
  | .getK8sService _ _ => 3
  | .createK8sService _ _ => 3
  | .updateService _ _ => 4

/-- The `serviceHandler` struct: its listers and the create and update calls
of its two clients, each as the function giving the call's answer. The
informer cache behind `serviceLister` is shared and refreshed while the
handler runs, so the answer to the second read of the Service, made by
`updateStatus`, is an input of its own, `serviceListerLatest`. -/
structure serviceHandler where
  serviceLister : String → String → Except Error Service
  serviceListerLatest : String → String → Except Error Service
  deploymentLister : String → String → Except Error Deployment
  autoscalePolicyLister : String → String → Except Error AutoscalePolicy
  k8sServiceLister : String → String → Except Error K8sService
  createDeployment : String → Deployment → Except Error Deployment
  createK8sService : String → K8sService → Except Error K8sService
  createAutoscalePolicy : String → AutoscalePolicy → Except Error AutoscalePolicy
  updateAutoscalePolicy : String → AutoscalePolicy → Except Error AutoscalePolicy
  updateService : String → Service → Except Error Service

/-- The functions of package `pkg/controller/service/resources` the handler
calls (the package is not among the sources): the deterministic child names
and the desired child objects, each a pure function of the Service. -/
structure Resources where
  ServiceDeploymentName : Service → String
  CreateServiceDeployment : Service → Deployment
  ServiceAutoscalePolicyName : Service → String
  CreateAutoscalePolicy : Service → AutoscalePolicy
  CreateDefaultAutoscalePolicy : Service → AutoscalePolicy
  ServiceK8sServiceName : Service → String
  CreateServiceK8sService : Service → K8sService

/-- The result of a sub-reconciliation: the Service as the step leaves it,
the error returned, and the calls issued. -/
structure Outcome where
  service : Service
  err : Option Error
  calls : List Call
deriving DecidableEq

/-- The result of a function returning only an error, with the calls
issued. -/
structure ErrOutcome where
  err : Option Error
  calls : List Call
deriving DecidableEq

/-- The result of `updateStatus`: the returned Service pointer (`none` is
`nil`), the error, and the calls issued. -/
structure StatusOutcome where
  result : Option Service
  err : Option Error
  calls : List Call
deriving DecidableEq

/-! ## Library functions the handler calls -/

/-- The `strings.Split(key, "/")` of Go on the characters of the key. -/
def splitSlash : List Char → List (List Char)
  | [] => [[]]
  | c :: cs =>
    match splitSlash cs with
    | [] => [[]]
    | p :: ps => if c = '/' then [] :: p :: ps else (c :: p) :: ps

/-- The `cache.SplitMetaNamespaceKey` of client-go: one part is a name with
an empty namespace, two parts are namespace and name, anything else is an
error (`none`; `Handle` discards the error value). -/
def SplitMetaNamespaceKey (key : String) : Option (String × String) :=
  match splitSlash key.data with
  | [name] => some ("", String.mk name)
  | [ns, name] => some (String.mk ns, String.mk name)
  | _ => none

/-- The `metav1.GetControllerOf` of apimachinery: the first owner reference
whose `Controller` pointer is set and true. -/
def GetControllerOf (service : Service) : Option OwnerReference :=
  service.OwnerReferences.find? (fun ref => ref.Controller == some true)

/-! ## The handler -/

/-- The method `serviceHandler.handleDeployment`. -/
def handleDeployment (h : serviceHandler) (r : Resources) (service : Service) : Outcome :=
  let get := Call.getDeployment service.Namespace (r.ServiceDeploymentName service)
  match h.deploymentLister service.Namespace (r.ServiceDeploymentName service) with
  | .ok deployment =>
    { service := { service with Status := { service.Status with
        AvailableReplicas := deployment.Status.AvailableReplicas } },
      err := none, calls := [get] }
  | .error err =>
    if IsNotFound err then
      let create := Call.createDeployment service.Namespace (r.CreateServiceDeployment service)
      match h.createDeployment service.Namespace (r.CreateServiceDeployment service) with
      | .error err => { service := service, err := some err, calls := [get, create] }
      | .ok deployment =>
        { service := { service with Status := { service.Status with
            AvailableReplicas := deployment.Status.AvailableReplicas } },
          err := none, calls := [get, create] }
    else
      { service := service, err := some err, calls := [get] }

/-- The method `serviceHandler.updateAutoscalePolicyStatus`. -/
def updateAutoscalePolicyStatus (h : serviceHandler) (policy : AutoscalePolicy) : ErrOutcome :=
  let update := Call.updateAutoscalePolicy policy.Namespace policy
  match h.updateAutoscalePolicy policy.Namespace policy with
  | .error err => { err := some err, calls := [update] }
  | .ok _ => { err := none, calls := [update] }

/-- The method `serviceHandler.handleAutoscalePolicy`. The result of
`updateAutoscalePolicyStatus` is not read: only its calls are kept. -/
def handleAutoscalePolicy (h : serviceHandler) (r : Resources) (service : Service) : Outcome :=
  if service.Spec.Autoscaling = none then
    { service := service, err := none, calls := [] }
  else
    let get := Call.getAutoscalePolicy service.Namespace (r.ServiceAutoscalePolicyName service)
    match h.autoscalePolicyLister service.Namespace (r.ServiceAutoscalePolicyName service) with
    | .ok _ => { service := service, err := none, calls := [get] }
    | .error err =>
      if IsNotFound err then
        let autoscalePolicy :=
          if service.Spec.Autoscaling ≠ none then r.CreateAutoscalePolicy service
          else r.CreateDefaultAutoscalePolicy service
        let create := Call.createAutoscalePolicy service.Namespace autoscalePolicy
        match h.createAutoscalePolicy service.Namespace autoscalePolicy with
        | .error err => { service := service, err := some err, calls := [get, create] }
        | .ok autoscalePolicy =>
          let policy := { autoscalePolicy with Status := "Ready" }
          { service := service, err := none,
            calls := [get, create] ++ (updateAutoscalePolicyStatus h policy).calls }
      else
        { service := service, err := some err, calls := [get] }

/-- The method `serviceHandler.handleK8sService`. -/
def handleK8sService (h : serviceHandler) (r : Resources) (service : Service) : Outcome :=
  let get := Call.getK8sService service.Namespace (r.ServiceK8sServiceName service)
  match h.k8sServiceLister service.Namespace (r.ServiceK8sServiceName service) with
  | .ok k8sService =>
    { service := { service with Status := { service.Status with HostName := k8sService.Name } },
      err := none, calls := [get] }
  | .error err =>
    if IsNotFound err then
      let create := Call.createK8sService service.Namespace (r.CreateServiceK8sService service)
      match h.createK8sService service.Namespace (r.CreateServiceK8sService service) with
      | .error err => { service := service, err := some err, calls := [get, create] }
      | .ok k8sService =>
        { service := { service with Status := { service.Status with HostName := k8sService.Name } },
          err := none, calls := [get, create] }
    else
      { service := service, err := some err, calls := [get] }

/-- The method `serviceHandler.updateOwnerCell`. -/
def updateOwnerCell (service : Service) : Service :=
  if service.Status.OwnerCell = "" then
    match GetControllerOf service with
    | some ownerRef => { service with Status := { service.Status with OwnerCell := ownerRef.Name } }
    | none => { service with Status := { service.Status with OwnerCell := "<none>" } }
  else service

/-- The method `serviceHandler.handle`: the four ordered
sub-reconciliations. -/
def handle (h : serviceHandler) (r : Resources) (service : Service) : Outcome :=
  let o1 := handleDeployment h r service
  match o1.err with
  | some err => { service := o1.service, err := some err, calls := o1.calls }
  | none =>
    let o2 := handleAutoscalePolicy h r o1.service
    match o2.err with
    | some err => { service := o2.service, err := some err, calls := o1.calls ++ o2.calls }
    | none =>
      let o3 := handleK8sService h r o2.service
      match o3.err with
      | some err =>
        { service := o3.service, err := some err, calls := o1.calls ++ o2.calls ++ o3.calls }
      | none =>
        { service := updateOwnerCell o3.service, err := none,
          calls := o1.calls ++ o2.calls ++ o3.calls }

/-- The method `serviceHandler.updateStatus`. -/
def updateStatus (h : serviceHandler) (service : Service) : StatusOutcome :=
  let get := Call.getService service.Namespace service.Name
  match h.serviceListerLatest service.Namespace service.Name with
  | .error err => { result := none, err := some err, calls := [get] }
  | .ok latestService =>
    if latestService.Status ≠ service.Status then
      let updated := { latestService with Status := service.Status }
      let update := Call.updateService service.Namespace updated
      match h.updateService service.Namespace updated with
      | .ok s => { result := some s, err := none, calls := [get, update] }
      | .error err => { result := none, err := some err, calls := [get, update] }
    else
      { result := none, err := none, calls := [get] }

/-- The method `serviceHandler.Handle`. -/
def Handle (h : serviceHandler) (r : Resources) (key : String) : ErrOutcome :=
  match SplitMetaNamespaceKey key with
  | none => { err := none, calls := [] }
  | some (ns, name) =>
    match h.serviceLister ns name with
    | .error err =>
      if IsNotFound err then { err := none, calls := [Call.getService ns name] }
      else { err := some err, calls := [Call.getService ns name] }
    | .ok serviceOriginal =>
      let o := handle h r serviceOriginal
      match o.err with
      | some err => { err := some err, calls := Call.getService ns name :: o.calls }
      | none =>
        let u := updateStatus h o.service
        match u.err with
        | some err => { err := some err, calls := Call.getService ns name :: (o.calls ++ u.calls) }
        | none => { err := none, calls := Call.getService ns name :: (o.calls ++ u.calls) }

/-! ## Vocabulary of the properties -/

/-- A lookup-or-create step fails with `err`: its lookup fails with `err`,
which is not a 'not found'; or its lookup reports 'not found' and its create
call fails with `err`. -/
def lookupOrCreateFails {α : Type} (lookup create : Except Error α) (err : Error) : Prop :=
  (lookup = .error err ∧ IsNotFound err = false) ∨
  (∃ err0, lookup = .error err0 ∧ IsNotFound err0 = true ∧ create = .error err)

/-- The Service with `AvailableReplicas` read from a Deployment: what
`handleDeployment` leaves when it succeeds. -/
def withAvailableReplicas (service : Service) (deployment : Deployment) : Service :=
  { service with Status := { service.Status with
      AvailableReplicas := deployment.Status.AvailableReplicas } }

/-- The Service with `HostName` set to the name of an endpoint: what
`handleK8sService` leaves when it succeeds. -/
def withHostName (service : Service) (k8sService : K8sService) : Service :=
  { service with Status := { service.Status with HostName := k8sService.Name } }

/-! ## Concrete worlds

Small instances of the handler's inputs, used to run the handler. -/

/-- Child names and desired children built from the name of the Service. -/
def exampleResources : Resources where
  ServiceDeploymentName := fun s => s.Name ++ "-deployment"
  CreateServiceDeployment := fun s => ⟨s.Namespace, s.Name ++ "-deployment", ⟨0⟩⟩
  ServiceAutoscalePolicyName := fun s => s.Name ++ "-autoscalepolicy"
  CreateAutoscalePolicy := fun s => ⟨s.Namespace, s.Name ++ "-autoscalepolicy", "explicit", ""⟩
  CreateDefaultAutoscalePolicy := fun s => ⟨s.Namespace, s.Name ++ "-autoscalepolicy", "default", ""⟩
  ServiceK8sServiceName := fun s => s.Name ++ "-service"
  CreateServiceK8sService := fun s => ⟨s.Namespace, s.Name ++ "-service"⟩

/-- A 'not found' error. -/
def notFoundError : Error := ⟨"NotFound", "not found"⟩

/-- An error that is not a 'not found'. -/
def serverError : Error := ⟨"InternalError", "server unavailable"⟩

/-- The Service `ns/foo`: no autoscaling intent, no owner, empty status. -/
def fooService : Service := ⟨"ns", "foo", [], ⟨"image", none⟩, ⟨0, "", ""⟩⟩

/-- The Service `ns/bar`: autoscaling intent declared, empty status. -/
def barService : Service := ⟨"ns", "bar", [], ⟨"image", some ⟨"cpu"⟩⟩, ⟨0, "", ""⟩⟩

/-- The Service `ns/foo` with its status converged. -/
def convergedService : Service :=
  ⟨"ns", "foo", [], ⟨"image", none⟩, ⟨2, "foo-service", "<none>"⟩⟩

/-- A world holding `ns/foo` and none of its children; every write
succeeds and returns the object written. -/
def freshHandler : serviceHandler where
  serviceLister := fun _ _ => .ok fooService
  serviceListerLatest := fun _ _ => .ok fooService
  deploymentLister := fun _ _ => .error notFoundError
  autoscalePolicyLister := fun _ _ => .error notFoundError
  k8sServiceLister := fun _ _ => .error notFoundError
  createDeployment := fun _ d => .ok d
  createK8sService := fun _ s => .ok s
  createAutoscalePolicy := fun _ p => .ok p
  updateAutoscalePolicy := fun _ p => .ok p
  updateService := fun _ s => .ok s

/-- A world holding `ns/foo` with its Deployment (2 available replicas) and
its endpoint, the status of the Service already converged. -/
def convergedHandler : serviceHandler :=
  { freshHandler with
    serviceLister := fun _ _ => .ok convergedService
    serviceListerLatest := fun _ _ => .ok convergedService
    deploymentLister := fun ns name => .ok ⟨ns, name, ⟨2⟩⟩
    k8sServiceLister := fun ns name => .ok ⟨ns, name⟩ }

/-- The converged world, the Service deleted from the cache before the final
read of `updateStatus`. -/
def deletedHandler : serviceHandler :=
  { convergedHandler with serviceListerLatest := fun _ _ => .error notFoundError }

/-- A world holding `ns/bar` and none of its children, where the update of
an AutoscalePolicy fails. -/
def policyUpdateFailsHandler : serviceHandler :=
  { freshHandler with
    serviceLister := fun _ _ => .ok barService
    serviceListerLatest := fun _ _ => .ok barService
    updateAutoscalePolicy := fun _ _ => .error serverError }

/-- A world without the Service `ns/foo`. -/
def missingHandler : serviceHandler :=
  { freshHandler with serviceLister := fun _ _ => .error notFoundError }

/-- The Service `ns/owned`: two owner references, the second one the
controller, and an empty status. -/
def ownedService : Service :=
  ⟨"ns", "owned", [⟨"watcher", none⟩, ⟨"cell-a", some true⟩], ⟨"image", none⟩, ⟨0, "", ""⟩⟩

/-- A world holding `ns/bar` and none of its children; every write
succeeds. -/
def freshBarHandler : serviceHandler :=
  { freshHandler with
    serviceLister := fun _ _ => .ok barService
    serviceListerLatest := fun _ _ => .ok barService }

/-- A world holding `ns/bar` where the create of an AutoscalePolicy fails. -/
def policyCreateFailsHandler : serviceHandler :=
  { freshBarHandler with createAutoscalePolicy := fun _ _ => .error serverError }

/-- A world holding `ns/foo` where the Deployment lookup fails with a
server error. -/
def deploymentLookupFailsHandler : serviceHandler :=
  { freshHandler with deploymentLister := fun _ _ => .error serverError }

/-- A world holding `ns/bar` and none of its children, where the create of
the endpoint fails. -/
def endpointCreateFailsHandler : serviceHandler :=
  { freshBarHandler with createK8sService := fun _ _ => .error serverError }

/-! ## Properties -/

/-! ### The sub-reconciliations, case by case -/

theorem updateAutoscalePolicyStatus_calls (h : serviceHandler) (policy : AutoscalePolicy) :
    (updateAutoscalePolicyStatus h policy).calls =
      [Call.updateAutoscalePolicy policy.Namespace policy] := by
  unfold updateAutoscalePolicyStatus
  cases h.updateAutoscalePolicy policy.Namespace policy <;> rfl

theorem handleAutoscalePolicy_none (h : serviceHandler) (r : Resources) (service : Service)
    (hint : service.Spec.Autoscaling = none) :
    handleAutoscalePolicy h r service = { service := service, err := none, calls := [] } := by
  simp [handleAutoscalePolicy, hint]

theorem handleAutoscalePolicy_found (h : serviceHandler) (r : Resources) (service : Service)
    (existing : AutoscalePolicy) (hint : service.Spec.Autoscaling ≠ none)
    (hl : h.autoscalePolicyLister service.Namespace (r.ServiceAutoscalePolicyName service)
      = .ok existing) :
    handleAutoscalePolicy h r service =
      { service := service, err := none,
        calls := [Call.getAutoscalePolicy service.Namespace
          (r.ServiceAutoscalePolicyName service)] } := by
  simp [handleAutoscalePolicy, hint, hl]

theorem handleAutoscalePolicy_lookup_error (h : serviceHandler) (r : Resources)
    (service : Service) (err : Error) (hint : service.Spec.Autoscaling ≠ none)
    (hl : h.autoscalePolicyLister service.Namespace (r.ServiceAutoscalePolicyName service)
      = .error err)
    (hnf : IsNotFound err = false) :
    handleAutoscalePolicy h r service =
      { service := service, err := some err,
        calls := [Call.getAutoscalePolicy service.Namespace
          (r.ServiceAutoscalePolicyName service)] } := by
  simp [handleAutoscalePolicy, hint, hl, hnf]

theorem handleAutoscalePolicy_create_error (h : serviceHandler) (r : Resources)
    (service : Service) (err err2 : Error) (hint : service.Spec.Autoscaling ≠ none)
    (hl : h.autoscalePolicyLister service.Namespace (r.ServiceAutoscalePolicyName service)
      = .error err)
    (hnf : IsNotFound err = true)
    (hc : h.createAutoscalePolicy service.Namespace (r.CreateAutoscalePolicy service)
      = .error err2) :
    handleAutoscalePolicy h r service =
      { service := service, err := some err2,
        calls := [Call.getAutoscalePolicy service.Namespace
            (r.ServiceAutoscalePolicyName service),
          Call.createAutoscalePolicy service.Namespace (r.CreateAutoscalePolicy service)] } := by
  simp [handleAutoscalePolicy, hint, hl, hnf, hc]

theorem handleAutoscalePolicy_created (h : serviceHandler) (r : Resources)
    (service : Service) (err : Error) (created : AutoscalePolicy)
    (hint : service.Spec.Autoscaling ≠ none)
    (hl : h.autoscalePolicyLister service.Namespace (r.ServiceAutoscalePolicyName service)
      = .error err)
    (hnf : IsNotFound err = true)
    (hc : h.createAutoscalePolicy service.Namespace (r.CreateAutoscalePolicy service)
      = .ok created) :
    handleAutoscalePolicy h r service =
      { service := service, err := none,
        calls := [Call.getAutoscalePolicy service.Namespace
            (r.ServiceAutoscalePolicyName service),
          Call.createAutoscalePolicy service.Namespace (r.CreateAutoscalePolicy service),
          Call.updateAutoscalePolicy created.Namespace { created with Status := "Ready" }] } := by
  simp [handleAutoscalePolicy, hint, hl, hnf, hc, updateAutoscalePolicyStatus_calls]

theorem handleAutoscalePolicy_service (h : serviceHandler) (r : Resources) (service : Service) :
    (handleAutoscalePolicy h r service).service = service := by
  by_cases hint : service.Spec.Autoscaling = none
  · rw [handleAutoscalePolicy_none h r service hint]
  · cases hl : h.autoscalePolicyLister service.Namespace (r.ServiceAutoscalePolicyName service) with
    | ok existing => rw [handleAutoscalePolicy_found h r service existing hint hl]
    | error err =>
      cases hnf : IsNotFound err with
      | false => rw [handleAutoscalePolicy_lookup_error h r service err hint hl hnf]
      | true =>
        cases hc : h.createAutoscalePolicy service.Namespace (r.CreateAutoscalePolicy service) with
        | error err2 => rw [handleAutoscalePolicy_create_error h r service err err2 hint hl hnf hc]
        | ok created => rw [handleAutoscalePolicy_created h r service err created hint hl hnf hc]

theorem handleAutoscalePolicy_step (h : serviceHandler) (r : Resources) (service : Service) :
    ∀ c ∈ (handleAutoscalePolicy h r service).calls, c.step = 2 := by
  by_cases hint : service.Spec.Autoscaling = none
  · rw [handleAutoscalePolicy_none h r service hint]
    simp
  · cases hl : h.autoscalePolicyLister service.Namespace (r.ServiceAutoscalePolicyName service) with
    | ok existing =>
      rw [handleAutoscalePolicy_found h r service existing hint hl]
      simp [Call.step]
    | error err =>
      cases hnf : IsNotFound err with
      | false =>
        rw [handleAutoscalePolicy_lookup_error h r service err hint hl hnf]
        simp [Call.step]
      | true =>
        cases hc : h.createAutoscalePolicy service.Namespace (r.CreateAutoscalePolicy service) with
        | error err2 =>
          rw [handleAutoscalePolicy_create_error h r service err err2 hint hl hnf hc]
          simp [Call.step]
        | ok created =>
          rw [handleAutoscalePolicy_created h r service err created hint hl hnf hc]
          simp [Call.step]

theorem handleDeployment_found (h : serviceHandler) (r : Resources) (service : Service)
    (deployment : Deployment)
    (hl : h.deploymentLister service.Namespace (r.ServiceDeploymentName service)
      = .ok deployment) :
    handleDeployment h r service =
      { service := withAvailableReplicas service deployment, err := none,
        calls := [Call.getDeployment service.Namespace (r.ServiceDeploymentName service)] } := by
  simp [handleDeployment, hl, withAvailableReplicas]

theorem handleDeployment_lookup_error (h : serviceHandler) (r : Resources) (service : Service)
    (err : Error)
    (hl : h.deploymentLister service.Namespace (r.ServiceDeploymentName service) = .error err)
    (hnf : IsNotFound err = false) :
    handleDeployment h r service =
      { service := service, err := some err,
        calls := [Call.getDeployment service.Namespace (r.ServiceDeploymentName service)] } := by
  simp [handleDeployment, hl, hnf]

theorem handleDeployment_create_error (h : serviceHandler) (r : Resources) (service : Service)
    (err err2 : Error)
    (hl : h.deploymentLister service.Namespace (r.ServiceDeploymentName service) = .error err)
    (hnf : IsNotFound err = true)
    (hc : h.createDeployment service.Namespace (r.CreateServiceDeployment service)
      = .error err2) :
    handleDeployment h r service =
      { service := service, err := some err2,
        calls := [Call.getDeployment service.Namespace (r.ServiceDeploymentName service),
          Call.createDeployment service.Namespace (r.CreateServiceDeployment service)] } := by
  simp [handleDeployment, hl, hnf, hc]

theorem handleDeployment_created (h : serviceHandler) (r : Resources) (service : Service)
    (err : Error) (deployment : Deployment)
    (hl : h.deploymentLister service.Namespace (r.ServiceDeploymentName service) = .error err)
    (hnf : IsNotFound err = true)
    (hc : h.createDeployment service.Namespace (r.CreateServiceDeployment service)
      = .ok deployment) :
    handleDeployment h r service =
      { service := withAvailableReplicas service deployment, err := none,
        calls := [Call.getDeployment service.Namespace (r.ServiceDeploymentName service),
          Call.createDeployment service.Namespace (r.CreateServiceDeployment service)] } := by
  simp [handleDeployment, hl, hnf, hc, withAvailableReplicas]

theorem handleDeployment_step (h : serviceHandler) (r : Resources) (service : Service) :
    ∀ c ∈ (handleDeployment h r service).calls, c.step = 1 := by
  cases hl : h.deploymentLister service.Namespace (r.ServiceDeploymentName service) with
  | ok deployment =>
    rw [handleDeployment_found h r service deployment hl]
    simp [Call.step]
  | error err =>
    cases hnf : IsNotFound err with
    | false =>
      rw [handleDeployment_lookup_error h r service err hl hnf]
      simp [Call.step]
    | true =>
      cases hc : h.createDeployment service.Namespace (r.CreateServiceDeployment service) with
      | error err2 =>
        rw [handleDeployment_create_error h r service err err2 hl hnf hc]
        simp [Call.step]
      | ok deployment =>
        rw [handleDeployment_created h r service err deployment hl hnf hc]
        simp [Call.step]

theorem handleK8sService_found (h : serviceHandler) (r : Resources) (service : Service)
    (k8sService : K8sService)
    (hl : h.k8sServiceLister service.Namespace (r.ServiceK8sServiceName service)
      = .ok k8sService) :
    handleK8sService h r service =
      { service := withHostName service k8sService, err := none,
        calls := [Call.getK8sService service.Namespace (r.ServiceK8sServiceName service)] } := by
  simp [handleK8sService, hl, withHostName]

theorem handleK8sService_lookup_error (h : serviceHandler) (r : Resources) (service : Service)
    (err : Error)
    (hl : h.k8sServiceLister service.Namespace (r.ServiceK8sServiceName service) = .error err)
    (hnf : IsNotFound err = false) :
    handleK8sService h r service =
      { service := service, err := some err,
        calls := [Call.getK8sService service.Namespace (r.ServiceK8sServiceName service)] } := by
  simp [handleK8sService, hl, hnf]

theorem handleK8sService_create_error (h : serviceHandler) (r : Resources) (service : Service)
    (err err2 : Error)
    (hl : h.k8sServiceLister service.Namespace (r.ServiceK8sServiceName service) = .error err)
    (hnf : IsNotFound err = true)
    (hc : h.createK8sService service.Namespace (r.CreateServiceK8sService service)
      = .error err2) :
    handleK8sService h r service =
      { service := service, err := some err2,
        calls := [Call.getK8sService service.Namespace (r.ServiceK8sServiceName service),
          Call.createK8sService service.Namespace (r.CreateServiceK8sService service)] } := by
  simp [handleK8sService, hl, hnf, hc]

theorem handleK8sService_created (h : serviceHandler) (r : Resources) (service : Service)
    (err : Error) (k8sService : K8sService)
    (hl : h.k8sServiceLister service.Namespace (r.ServiceK8sServiceName service) = .error err)
    (hnf : IsNotFound err = true)
    (hc : h.createK8sService service.Namespace (r.CreateServiceK8sService service)
      = .ok k8sService) :
    handleK8sService h r service =
      { service := withHostName service k8sService, err := none,
        calls := [Call.getK8sService service.Namespace (r.ServiceK8sServiceName service),
          Call.createK8sService service.Namespace (r.CreateServiceK8sService service)] } := by
  simp [handleK8sService, hl, hnf, hc, withHostName]

theorem handleK8sService_step (h : serviceHandler) (r : Resources) (service : Service) :
    ∀ c ∈ (handleK8sService h r service).calls, c.step = 3 := by
  cases hl : h.k8sServiceLister service.Namespace (r.ServiceK8sServiceName service) with
  | ok k8sService =>
    rw [handleK8sService_found h r service k8sService hl]
    simp [Call.step]
  | error err =>
    cases hnf : IsNotFound err with
    | false =>
      rw [handleK8sService_lookup_error h r service err hl hnf]
      simp [Call.step]
    | true =>
      cases hc : h.createK8sService service.Namespace (r.CreateServiceK8sService service) with
      | error err2 =>
        rw [handleK8sService_create_error h r service err err2 hl hnf hc]
        simp [Call.step]
      | ok k8sService =>
        rw [handleK8sService_created h r service err k8sService hl hnf hc]
        simp [Call.step]

theorem handle_of_step1_err (h : serviceHandler) (r : Resources) (service : Service)
    (err : Error) (h1 : (handleDeployment h r service).err = some err) :
    (handle h r service).err = some err ∧
    (handle h r service).calls = (handleDeployment h r service).calls := by
  simp [handle, h1]

theorem handle_of_step2_err (h : serviceHandler) (r : Resources) (service : Service)
    (err : Error) (h1 : (handleDeployment h r service).err = none)
    (h2 : (handleAutoscalePolicy h r (handleDeployment h r service).service).err = some err) :
    (handle h r service).err = some err ∧
    (handle h r service).calls = (handleDeployment h r service).calls ++
      (handleAutoscalePolicy h r (handleDeployment h r service).service).calls := by
  simp [handle, h1, h2]

theorem handle_of_step3_err (h : serviceHandler) (r : Resources) (service : Service)
    (err : Error) (h1 : (handleDeployment h r service).err = none)
    (h2 : (handleAutoscalePolicy h r (handleDeployment h r service).service).err = none)
    (h3 : (handleK8sService h r (handleDeployment h r service).service).err = some err) :
    (handle h r service).err = some err ∧
    (handle h r service).calls = (handleDeployment h r service).calls ++
      (handleAutoscalePolicy h r (handleDeployment h r service).service).calls ++
      (handleK8sService h r (handleDeployment h r service).service).calls := by
  simp [handle, h1, h2, h3, handleAutoscalePolicy_service]

theorem handle_of_ok (h : serviceHandler) (r : Resources) (service : Service)
    (h1 : (handleDeployment h r service).err = none)
    (h2 : (handleAutoscalePolicy h r (handleDeployment h r service).service).err = none)
    (h3 : (handleK8sService h r (handleDeployment h r service).service).err = none) :
    handle h r service =
      { service := updateOwnerCell (handleK8sService h r (handleDeployment h r service).service).service,
        err := none,
        calls := (handleDeployment h r service).calls ++
          (handleAutoscalePolicy h r (handleDeployment h r service).service).calls ++
          (handleK8sService h r (handleDeployment h r service).service).calls } := by
  simp [handle, h1, h2, h3, handleAutoscalePolicy_service]

theorem handle_ok_steps (h : serviceHandler) (r : Resources) (service : Service)
    (hok : (handle h r service).err = none) :
    (handleDeployment h r service).err = none ∧
    (handleAutoscalePolicy h r (handleDeployment h r service).service).err = none ∧
    (handleK8sService h r (handleDeployment h r service).service).err = none := by
  cases h1 : (handleDeployment h r service).err with
  | some err => rw [(handle_of_step1_err h r service err h1).1] at hok; cases hok
  | none =>
    cases h2 : (handleAutoscalePolicy h r (handleDeployment h r service).service).err with
    | some err => rw [(handle_of_step2_err h r service err h1 h2).1] at hok; cases hok
    | none =>
      cases h3 : (handleK8sService h r (handleDeployment h r service).service).err with
      | some err => rw [(handle_of_step3_err h r service err h1 h2 h3).1] at hok; cases hok
      | none => exact ⟨rfl, rfl, rfl⟩

theorem updateOwnerCell_other_fields (service : Service) :
    (updateOwnerCell service).Status.AvailableReplicas = service.Status.AvailableReplicas ∧
    (updateOwnerCell service).Status.HostName = service.Status.HostName ∧
    (updateOwnerCell service).Namespace = service.Namespace ∧
    (updateOwnerCell service).Name = service.Name := by
  unfold updateOwnerCell
  split
  · split <;> exact ⟨rfl, rfl, rfl, rfl⟩
  · exact ⟨rfl, rfl, rfl, rfl⟩

theorem handleDeployment_ok (h : serviceHandler) (r : Resources) (service : Service)
    (hok : (handleDeployment h r service).err = none) :
    ∃ deployment,
      ((h.deploymentLister service.Namespace (r.ServiceDeploymentName service) = .ok deployment ∧
        (handleDeployment h r service).calls =
          [Call.getDeployment service.Namespace (r.ServiceDeploymentName service)]) ∨
       (∃ err, h.deploymentLister service.Namespace (r.ServiceDeploymentName service)
          = .error err ∧ IsNotFound err = true ∧
        h.createDeployment service.Namespace (r.CreateServiceDeployment service)
          = .ok deployment ∧
        (handleDeployment h r service).calls =
          [Call.getDeployment service.Namespace (r.ServiceDeploymentName service),
           Call.createDeployment service.Namespace (r.CreateServiceDeployment service)])) ∧
      (handleDeployment h r service).service = withAvailableReplicas service deployment := by
  cases hl : h.deploymentLister service.Namespace (r.ServiceDeploymentName service) with
  | ok deployment =>
    rw [handleDeployment_found h r service deployment hl]
    exact ⟨deployment, Or.inl ⟨rfl, rfl⟩, rfl⟩
  | error err =>
    cases hnf : IsNotFound err with
    | false =>
      rw [handleDeployment_lookup_error h r service err hl hnf] at hok
      cases hok
    | true =>
      cases hc : h.createDeployment service.Namespace (r.CreateServiceDeployment service) with
      | error err2 =>
        rw [handleDeployment_create_error h r service err err2 hl hnf hc] at hok
        cases hok
      | ok deployment =>
        rw [handleDeployment_created h r service err deployment hl hnf hc]
        exact ⟨deployment, Or.inr ⟨err, rfl, hnf, rfl, rfl⟩, rfl⟩

theorem handleK8sService_ok (h : serviceHandler) (r : Resources) (service : Service)
    (hok : (handleK8sService h r service).err = none) :
    ∃ k8sService,
      ((h.k8sServiceLister service.Namespace (r.ServiceK8sServiceName service) = .ok k8sService ∧
        (handleK8sService h r service).calls =
          [Call.getK8sService service.Namespace (r.ServiceK8sServiceName service)]) ∨
       (∃ err, h.k8sServiceLister service.Namespace (r.ServiceK8sServiceName service)
          = .error err ∧ IsNotFound err = true ∧
        h.createK8sService service.Namespace (r.CreateServiceK8sService service)
          = .ok k8sService ∧
        (handleK8sService h r service).calls =
          [Call.getK8sService service.Namespace (r.ServiceK8sServiceName service),
           Call.createK8sService service.Namespace (r.CreateServiceK8sService service)])) ∧
      (handleK8sService h r service).service = withHostName service k8sService := by
  cases hl : h.k8sServiceLister service.Namespace (r.ServiceK8sServiceName service) with
  | ok k8sService =>
    rw [handleK8sService_found h r service k8sService hl]
    exact ⟨k8sService, Or.inl ⟨rfl, rfl⟩, rfl⟩
  | error err =>
    cases hnf : IsNotFound err with
    | false =>
      rw [handleK8sService_lookup_error h r service err hl hnf] at hok
      cases hok
    | true =>
      cases hc : h.createK8sService service.Namespace (r.CreateServiceK8sService service) with
      | error err2 =>
        rw [handleK8sService_create_error h r service err err2 hl hnf hc] at hok
        cases hok
      | ok k8sService =>
        rw [handleK8sService_created h r service err k8sService hl hnf hc]
        exact ⟨k8sService, Or.inr ⟨err, rfl, hnf, rfl, rfl⟩, rfl⟩

theorem filter_eq_nil_of_step (p : Call → Bool) (n : Nat) (calls : List Call)
    (hp : ∀ c, p c = true → c.step ≠ n) (hstep : ∀ c ∈ calls, c.step = n) :
    calls.filter p = [] := by
  rw [List.filter_eq_nil_iff]
  intro c hc hpc
  exact hp c hpc (hstep c hc)

theorem isDeploymentCreate_step (c : Call) (hc : c.isDeploymentCreate = true) : c.step = 1 := by
  cases c <;> simp_all [Call.isDeploymentCreate, Call.step]

theorem isK8sServiceCreate_step (c : Call) (hc : c.isK8sServiceCreate = true) : c.step = 3 := by
  cases c <;> simp_all [Call.isK8sServiceCreate, Call.step]

theorem isServiceUpdate_step (c : Call) (hc : c.isServiceUpdate = true) : c.step = 4 := by
  cases c <;> simp_all [Call.isServiceUpdate, Call.step]

theorem isAutoscalePolicyCall_step (c : Call) (hc : c.isAutoscalePolicyCall = true) :
    c.step = 2 := by
  cases c <;> simp_all [Call.isAutoscalePolicyCall, Call.step]

theorem handleDeployment_fails (h : serviceHandler) (r : Resources) (service : Service)
    (err : Error)
    (hf : lookupOrCreateFails
      (h.deploymentLister service.Namespace (r.ServiceDeploymentName service))
      (h.createDeployment service.Namespace (r.CreateServiceDeployment service)) err) :
    (handleDeployment h r service).err = some err := by
  rcases hf with ⟨hl, hnf⟩ | ⟨err0, hl, hnf, hc⟩
  · rw [handleDeployment_lookup_error h r service err hl hnf]
  · rw [handleDeployment_create_error h r service err0 err hl hnf hc]

theorem handleAutoscalePolicy_fails (h : serviceHandler) (r : Resources) (service : Service)
    (err : Error) (hint : service.Spec.Autoscaling ≠ none)
    (hf : lookupOrCreateFails
      (h.autoscalePolicyLister service.Namespace (r.ServiceAutoscalePolicyName service))
      (h.createAutoscalePolicy service.Namespace (r.CreateAutoscalePolicy service)) err) :
    (handleAutoscalePolicy h r service).err = some err := by
  rcases hf with ⟨hl, hnf⟩ | ⟨err0, hl, hnf, hc⟩
  · rw [handleAutoscalePolicy_lookup_error h r service err hint hl hnf]
  · rw [handleAutoscalePolicy_create_error h r service err0 err hint hl hnf hc]

theorem handleK8sService_fails (h : serviceHandler) (r : Resources) (service : Service)
    (err : Error)
    (hf : lookupOrCreateFails
      (h.k8sServiceLister service.Namespace (r.ServiceK8sServiceName service))
      (h.createK8sService service.Namespace (r.CreateServiceK8sService service)) err) :
    (handleK8sService h r service).err = some err := by
  rcases hf with ⟨hl, hnf⟩ | ⟨err0, hl, hnf, hc⟩
  · rw [handleK8sService_lookup_error h r service err hl hnf]
  · rw [handleK8sService_create_error h r service err0 err hl hnf hc]

theorem Handle_of_handle_err (h : serviceHandler) (r : Resources) (key ns name : String)
    (service : Service) (err : Error)
    (hkey : SplitMetaNamespaceKey key = some (ns, name))
    (hsvc : h.serviceLister ns name = .ok service)
    (herr : (handle h r service).err = some err) :
    Handle h r key =
      { err := some err, calls := Call.getService ns name :: (handle h r service).calls } := by
  simp [Handle, hkey, hsvc, herr]

theorem Handle_of_handle_ok (h : serviceHandler) (r : Resources) (key ns name : String)
    (service : Service)
    (hkey : SplitMetaNamespaceKey key = some (ns, name))
    (hsvc : h.serviceLister ns name = .ok service)
    (hok : (handle h r service).err = none) :
    Handle h r key =
      { err := (updateStatus h (handle h r service).service).err,
        calls := Call.getService ns name ::
          ((handle h r service).calls ++ (updateStatus h (handle h r service).service).calls) } := by
  simp only [Handle, hkey, hsvc, hok]
  cases (updateStatus h (handle h r service).service).err <;> rfl

theorem updateStatus_step (h : serviceHandler) (service : Service) :
    ∀ c ∈ (updateStatus h service).calls, c.step = 0 ∨ c.step = 4 := by
  unfold updateStatus
  cases h.serviceListerLatest service.Namespace service.Name with
  | error err => simp [Call.step]
  | ok latestService =>
    by_cases hs : latestService.Status = service.Status
    · simp [hs, Call.step]
    · simp only [ne_eq, hs, not_false_eq_true, if_true]
      cases h.updateService service.Namespace { latestService with Status := service.Status } <;>
        simp [Call.step]

theorem handleDeployment_spec (h : serviceHandler) (r : Resources) (service : Service) :
    (handleDeployment h r service).service.Spec = service.Spec := by
  cases hl : h.deploymentLister service.Namespace (r.ServiceDeploymentName service) with
  | ok deployment => rw [handleDeployment_found h r service deployment hl]; rfl
  | error err =>
    cases hnf : IsNotFound err with
    | false => rw [handleDeployment_lookup_error h r service err hl hnf]
    | true =>
      cases hc : h.createDeployment service.Namespace (r.CreateServiceDeployment service) with
      | error err2 => rw [handleDeployment_create_error h r service err err2 hl hnf hc]
      | ok deployment => rw [handleDeployment_created h r service err deployment hl hnf hc]; rfl

theorem handle_calls_mem (h : serviceHandler) (r : Resources) (service : Service) :
    ∀ c ∈ (handle h r service).calls,
      c ∈ (handleDeployment h r service).calls ∨
      c ∈ (handleAutoscalePolicy h r (handleDeployment h r service).service).calls ∨
      c ∈ (handleK8sService h r (handleDeployment h r service).service).calls := by
  intro c hmem
  cases h1 : (handleDeployment h r service).err with
  | some err =>
    rw [(handle_of_step1_err h r service err h1).2] at hmem
    exact Or.inl hmem
  | none =>
    cases h2 : (handleAutoscalePolicy h r (handleDeployment h r service).service).err with
    | some err =>
      rw [(handle_of_step2_err h r service err h1 h2).2] at hmem
      rcases List.mem_append.1 hmem with hmem | hmem
      · exact Or.inl hmem
      · exact Or.inr (Or.inl hmem)
    | none =>
      cases h3 : (handleK8sService h r (handleDeployment h r service).service).err with
      | some err =>
        rw [(handle_of_step3_err h r service err h1 h2 h3).2] at hmem
        rcases List.mem_append.1 hmem with hmem | hmem
        · rcases List.mem_append.1 hmem with hmem | hmem
          · exact Or.inl hmem
          · exact Or.inr (Or.inl hmem)
        · exact Or.inr (Or.inr hmem)
      | none =>
        rw [handle_of_ok h r service h1 h2 h3] at hmem
        rcases List.mem_append.1 hmem with hmem | hmem
        · rcases List.mem_append.1 hmem with hmem | hmem
          · exact Or.inl hmem
          · exact Or.inr (Or.inl hmem)
        · exact Or.inr (Or.inr hmem)

theorem Handle_calls_mem (h : serviceHandler) (r : Resources) (key ns name : String)
    (service : Service)
    (hkey : SplitMetaNamespaceKey key = some (ns, name))
    (hsvc : h.serviceLister ns name = .ok service) :
    ∀ c ∈ (Handle h r key).calls,
      c = Call.getService ns name ∨ c ∈ (handle h r service).calls ∨
      c ∈ (updateStatus h (handle h r service).service).calls := by
  intro c hmem
  cases he : (handle h r service).err with
  | some err =>
    rw [Handle_of_handle_err h r key ns name service err hkey hsvc he] at hmem
    rcases List.mem_cons.1 hmem with hmem | hmem
    · exact Or.inl hmem
    · exact Or.inr (Or.inl hmem)
  | none =>
    rw [Handle_of_handle_ok h r key ns name service hkey hsvc he] at hmem
    rcases List.mem_cons.1 hmem with hmem | hmem
    · exact Or.inl hmem
    · rcases List.mem_append.1 hmem with hmem | hmem
      · exact Or.inr (Or.inl hmem)
      · exact Or.inr (Or.inr hmem)

theorem isCreate_step (c : Call) (hc : c.isCreate = true) : 1 ≤ c.step ∧ c.step ≤ 3 := by
  cases c <;> simp_all [Call.isCreate, Call.step]

/-! ### Behaviour of the handler -/

/-- C1: status gating in `updateStatus`. When the latest copy of the Service
is found in the cache: if its status equals the computed status, the result
is `(nil, nil)` and no Service update call is issued; if any of the three
status fields differs, exactly one Service update call is issued, carrying
the cached copy with its status replaced by the computed status. -/
theorem updateStatus_gating (h : serviceHandler) (service latestService : Service)
    (hget : h.serviceListerLatest service.Namespace service.Name = .ok latestService) :
    (latestService.Status = service.Status →
      (updateStatus h service).result = none ∧ (updateStatus h service).err = none ∧
      (updateStatus h service).calls.filter Call.isServiceUpdate = [] ∧
      (updateStatus h service).calls.filter Call.isUpdate = []) ∧
    ((latestService.Status.AvailableReplicas ≠ service.Status.AvailableReplicas ∨
      latestService.Status.HostName ≠ service.Status.HostName ∨
      latestService.Status.OwnerCell ≠ service.Status.OwnerCell) →
      (updateStatus h service).calls.filter Call.isServiceUpdate =
        [Call.updateService service.Namespace { latestService with Status := service.Status }] ∧
      (updateStatus h service).calls.filter Call.isUpdate =
        [Call.updateService service.Namespace { latestService with Status := service.Status }]) := by
  constructor
  · intro heq
    simp [updateStatus, hget, heq, Call.isServiceUpdate, Call.isUpdate]
  · intro hne
    have hs : latestService.Status ≠ service.Status := by
      intro heq
      rw [heq] at hne
      simp at hne
    unfold updateStatus
    simp only [hget]
    rw [if_pos hs]
    cases h.updateService service.Namespace { latestService with Status := service.Status } <;>
      simp [Call.isServiceUpdate, Call.isUpdate]

/-- C1 at a concrete input: the cached `ns/foo` has an empty status, the
computed status is the converged one. -/
theorem updateStatus_gating_witness :
    (fooService.Status = convergedService.Status →
      (updateStatus freshHandler convergedService).result = none ∧
      (updateStatus freshHandler convergedService).err = none ∧
      (updateStatus freshHandler convergedService).calls.filter Call.isServiceUpdate = [] ∧
      (updateStatus freshHandler convergedService).calls.filter Call.isUpdate = []) ∧
    ((fooService.Status.AvailableReplicas ≠ convergedService.Status.AvailableReplicas ∨
      fooService.Status.HostName ≠ convergedService.Status.HostName ∨
      fooService.Status.OwnerCell ≠ convergedService.Status.OwnerCell) →
      (updateStatus freshHandler convergedService).calls.filter Call.isServiceUpdate =
        [Call.updateService convergedService.Namespace
          { fooService with Status := convergedService.Status }] ∧
      (updateStatus freshHandler convergedService).calls.filter Call.isUpdate =
        [Call.updateService convergedService.Namespace
          { fooService with Status := convergedService.Status }]) :=
  updateStatus_gating freshHandler convergedService fooService rfl

/-- C2, evaluated: in a world where the four sub-reconciliations of `ns/foo`
succeed and the final read of `updateStatus` reports 'not found', `Handle`
returns that 'not found' error (which makes the key be requeued); it issues
no Service update call. -/
theorem Handle_final_not_found_is_returned :
    (handle deletedHandler exampleResources convergedService).err = none ∧
    deletedHandler.serviceListerLatest "ns" "foo" = .error notFoundError ∧
    IsNotFound notFoundError = true ∧
    (Handle deletedHandler exampleResources "ns/foo").err = some notFoundError ∧
    (Handle deletedHandler exampleResources "ns/foo").calls.filter Call.isServiceUpdate = [] := by
  refine ⟨?_, rfl, ?_, ?_, ?_⟩ <;> decide

/-- C3, evaluated: `ns/bar` declares autoscaling intent and has no policy;
the create call succeeds and the update call that persists "Ready" fails
with a server error; `handleAutoscalePolicy` returns no error, and neither
does `Handle`. -/
theorem handleAutoscalePolicy_drops_update_error :
    barService.Spec.Autoscaling ≠ none ∧
    policyUpdateFailsHandler.autoscalePolicyLister "ns" "bar-autoscalepolicy"
      = .error notFoundError ∧
    policyUpdateFailsHandler.createAutoscalePolicy "ns"
      (exampleResources.CreateAutoscalePolicy barService)
      = .ok ⟨"ns", "bar-autoscalepolicy", "explicit", ""⟩ ∧
    (updateAutoscalePolicyStatus policyUpdateFailsHandler
      ⟨"ns", "bar-autoscalepolicy", "explicit", "Ready"⟩).err = some serverError ∧
    (handleAutoscalePolicy policyUpdateFailsHandler exampleResources barService).calls =
      [Call.getAutoscalePolicy "ns" "bar-autoscalepolicy",
       Call.createAutoscalePolicy "ns" ⟨"ns", "bar-autoscalepolicy", "explicit", ""⟩,
       Call.updateAutoscalePolicy "ns" ⟨"ns", "bar-autoscalepolicy", "explicit", "Ready"⟩] ∧
    (handleAutoscalePolicy policyUpdateFailsHandler exampleResources barService).err = none ∧
    (Handle policyUpdateFailsHandler exampleResources "ns/bar").err = none := by
  refine ⟨?_, rfl, rfl, ?_, ?_, ?_, ?_⟩ <;> decide

/-- C4 as the spec states it fails: `ns/foo` declares no autoscaling intent
and has no AutoscalePolicy, Deployment or endpoint; `Handle` succeeds, yet
it issues no AutoscalePolicy create call and no policy update, and two
create calls, not three. -/
theorem Handle_default_policy_counterexample :
    fooService.Spec.Autoscaling = none ∧
    freshHandler.autoscalePolicyLister "ns" "foo-autoscalepolicy" = .error notFoundError ∧
    (Handle freshHandler exampleResources "ns/foo").err = none ∧
    ¬ ((Handle freshHandler exampleResources "ns/foo").calls.filter
        Call.isAutoscalePolicyCreate).length = 1 ∧
    (Handle freshHandler exampleResources "ns/foo").calls.filter Call.isAutoscalePolicyCall
      = [] ∧
    ¬ ((Handle freshHandler exampleResources "ns/foo").calls.filter Call.isCreate).length = 3 := by
  refine ⟨rfl, rfl, ?_, ?_, ?_, ?_⟩ <;> decide

/-- C4, as the code has it: for a Service without autoscaling intent
`Handle` issues no AutoscalePolicy call at all (no lookup, no create, no
update), whether or not a policy exists; and when neither its Deployment nor
its endpoint exists and both create calls succeed, the create calls of the
reconcile are exactly two, the Deployment and then the endpoint. -/
theorem Handle_no_intent_no_policy (h : serviceHandler) (r : Resources) (key ns name : String)
    (service : Service)
    (hkey : SplitMetaNamespaceKey key = some (ns, name))
    (hsvc : h.serviceLister ns name = .ok service)
    (hint : service.Spec.Autoscaling = none) :
    (Handle h r key).calls.filter Call.isAutoscalePolicyCall = [] ∧
    (∀ err1 err3 deployment k8sService,
      h.deploymentLister service.Namespace (r.ServiceDeploymentName service) = .error err1 →
      IsNotFound err1 = true →
      h.createDeployment service.Namespace (r.CreateServiceDeployment service)
        = .ok deployment →
      h.k8sServiceLister service.Namespace
        (r.ServiceK8sServiceName (withAvailableReplicas service deployment)) = .error err3 →
      IsNotFound err3 = true →
      h.createK8sService service.Namespace
        (r.CreateServiceK8sService (withAvailableReplicas service deployment))
        = .ok k8sService →
      (Handle h r key).calls.filter Call.isCreate =
        [Call.createDeployment service.Namespace (r.CreateServiceDeployment service),
         Call.createK8sService service.Namespace
           (r.CreateServiceK8sService (withAvailableReplicas service deployment))]) := by
  have hint1 : (handleDeployment h r service).service.Spec.Autoscaling = none := by
    rw [handleDeployment_spec h r service, hint]
  have hp := handleAutoscalePolicy_none h r _ hint1
  constructor
  · rw [List.filter_eq_nil_iff]
    intro c hmem hpc
    have h2 := isAutoscalePolicyCall_step c hpc
    rcases Handle_calls_mem h r key ns name service hkey hsvc c hmem with rfl | hmem | hmem
    · simp [Call.step] at h2
    · rcases handle_calls_mem h r service c hmem with hmem | hmem | hmem
      · have := handleDeployment_step h r service c hmem
        omega
      · rw [hp] at hmem
        simp at hmem
      · have := handleK8sService_step h r _ c hmem
        omega
    · have := updateStatus_step h _ c hmem
      omega
  · intro err1 err3 deployment k8sService hl1 hnf1 hc1 hl3 hnf3 hc3
    have hd := handleDeployment_created h r service err1 deployment hl1 hnf1 hc1
    have hk := handleK8sService_created h r (withAvailableReplicas service deployment) err3
      k8sService hl3 hnf3 hc3
    have hds : (handleDeployment h r service).service = withAvailableReplicas service deployment := by
      rw [hd]
    have hh := handle_of_ok h r service (by rw [hd]) (by rw [hp]) (by rw [hds, hk])
    rw [hp, hds, hk, hd] at hh
    have hok : (handle h r service).err = none := by rw [hh]
    have hu : (updateStatus h (handle h r service).service).calls.filter Call.isCreate = [] := by
      rw [List.filter_eq_nil_iff]
      intro c hmem hpc
      have h13 := isCreate_step c hpc
      have := updateStatus_step h _ c hmem
      omega
    rw [Handle_of_handle_ok h r key ns name service hkey hsvc hok]
    simp only [List.filter_cons, List.filter_append, hu]
    rw [hh]
    simp [Call.isCreate, withAvailableReplicas]

/-- C4 at a concrete input: the first reconcile of `ns/foo`, which declares
no autoscaling intent and has no children. -/
theorem Handle_no_intent_no_policy_witness :
    (Handle freshHandler exampleResources "ns/foo").calls.filter Call.isAutoscalePolicyCall
      = [] ∧
    (Handle freshHandler exampleResources "ns/foo").calls.filter Call.isCreate =
      [Call.createDeployment "ns" ⟨"ns", "foo-deployment", ⟨0⟩⟩,
       Call.createK8sService "ns" ⟨"ns", "foo-service"⟩] :=
  ⟨(Handle_no_intent_no_policy freshHandler exampleResources "ns/foo" "ns" "foo" fooService
      (by decide) rfl rfl).1,
   (Handle_no_intent_no_policy freshHandler exampleResources "ns/foo" "ns" "foo" fooService
      (by decide) rfl rfl).2 notFoundError notFoundError ⟨"ns", "foo-deployment", ⟨0⟩⟩
      ⟨"ns", "foo-service"⟩ rfl (by decide) rfl rfl (by decide) rfl⟩

/-- C5: owner resolution in `updateOwnerCell`. A non-empty `OwnerCell` is
left unchanged, whatever the owner references; an empty one becomes the name
of the controller owner reference (an owner reference of the Service whose
`Controller` flag is set and true) when there is one, and "<none>" when no
owner reference is a controller; no other field of the Service changes; and
a second application changes nothing once the first has given a non-empty
value. -/
theorem updateOwnerCell_resolution (service : Service) :
    (service.Status.OwnerCell ≠ "" → updateOwnerCell service = service) ∧
    (service.Status.OwnerCell = "" → ∀ ownerRef, GetControllerOf service = some ownerRef →
      ownerRef ∈ service.OwnerReferences ∧ ownerRef.Controller = some true ∧
      (updateOwnerCell service).Status.OwnerCell = ownerRef.Name) ∧
    (service.Status.OwnerCell = "" →
      (∀ ownerRef ∈ service.OwnerReferences, ownerRef.Controller ≠ some true) →
      (updateOwnerCell service).Status.OwnerCell = "<none>") ∧
    updateOwnerCell service =
      { service with Status := { service.Status with
          OwnerCell := (updateOwnerCell service).Status.OwnerCell } } ∧
    ((updateOwnerCell service).Status.OwnerCell ≠ "" →
      updateOwnerCell (updateOwnerCell service) = updateOwnerCell service) := by
  refine ⟨?_, ?_, ?_, ?_, ?_⟩
  · intro hne
    simp [updateOwnerCell, hne]
  · intro hempty ownerRef href
    have hfind := href
    unfold GetControllerOf at hfind
    refine ⟨List.mem_of_find?_eq_some hfind, ?_, ?_⟩
    · have := List.find?_some hfind
      simpa using this
    · simp [updateOwnerCell, hempty, href]
  · intro hempty hnone
    have hfind : GetControllerOf service = none := by
      unfold GetControllerOf
      rw [List.find?_eq_none]
      intro ownerRef hmem
      simpa using hnone ownerRef hmem
    simp [updateOwnerCell, hempty, hfind]
  · unfold updateOwnerCell
    split
    · split <;> rfl
    · rfl
  · intro hne
    generalize updateOwnerCell service = s at hne
    simp [updateOwnerCell, hne]

/-- C5 at concrete inputs: the controller of `ns/owned` is `cell-a`, the
Service `ns/foo` has no owner, and the converged Service keeps its value. -/
theorem updateOwnerCell_resolution_witness :
    (updateOwnerCell ownedService).Status.OwnerCell = "cell-a" ∧
    (updateOwnerCell fooService).Status.OwnerCell = "<none>" ∧
    updateOwnerCell convergedService = convergedService ∧
    updateOwnerCell (updateOwnerCell ownedService) = updateOwnerCell ownedService :=
  ⟨((updateOwnerCell_resolution ownedService).2.1 rfl ⟨"cell-a", some true⟩ rfl).2.2,
   (updateOwnerCell_resolution fooService).2.2.1 rfl (by decide),
   (updateOwnerCell_resolution convergedService).1 (by decide),
   (updateOwnerCell_resolution ownedService).2.2.2.2 (by decide)⟩

/-- C6: idempotence of `Handle`. For a Service present in the cache whose
Deployment and NetworkEndpoint are in the cache (and whose AutoscalePolicy
is, when autoscaling intent is declared), and whose cached status already
is the status the handler computes (`AvailableReplicas` that of the
Deployment, `HostName` the name of the endpoint, `OwnerCell` non-empty),
`Handle` returns no error and issues no create call and no update call; so
two invocations in succession issue none either. -/
theorem Handle_idempotent (h : serviceHandler) (r : Resources) (key ns name : String)
    (service latestService : Service) (deployment : Deployment) (k8sService : K8sService)
    (hkey : SplitMetaNamespaceKey key = some (ns, name))
    (hsvc : h.serviceLister ns name = .ok service)
    (hdep : h.deploymentLister service.Namespace (r.ServiceDeploymentName service)
      = .ok deployment)
    (hpol : service.Spec.Autoscaling ≠ none → ∃ existing,
      h.autoscalePolicyLister service.Namespace (r.ServiceAutoscalePolicyName service)
        = .ok existing)
    (hk8s : h.k8sServiceLister service.Namespace (r.ServiceK8sServiceName service)
      = .ok k8sService)
    (hlatest : h.serviceListerLatest service.Namespace service.Name = .ok latestService)
    (hcached : latestService.Status = service.Status)
    (hreplicas : service.Status.AvailableReplicas = deployment.Status.AvailableReplicas)
    (hhost : service.Status.HostName = k8sService.Name)
    (howner : service.Status.OwnerCell ≠ "") :
    (Handle h r key).err = none ∧
    (Handle h r key).calls.filter Call.isCreate = [] ∧
    (Handle h r key).calls.filter Call.isUpdate = [] ∧
    ((Handle h r key).calls ++ (Handle h r key).calls).filter
      (fun c => c.isCreate || c.isUpdate) = [] := by
  have hs1 : withAvailableReplicas service deployment = service := by
    unfold withAvailableReplicas
    rw [← hreplicas]
  have hs3 : withHostName service k8sService = service := by
    unfold withHostName
    rw [← hhost]
  have hd := handleDeployment_found h r service deployment hdep
  rw [hs1] at hd
  have hk := handleK8sService_found h r service k8sService hk8s
  rw [hs3] at hk
  have hp : (handleAutoscalePolicy h r service).err = none ∧
      (handleAutoscalePolicy h r service).calls.filter Call.isCreate = [] ∧
      (handleAutoscalePolicy h r service).calls.filter Call.isUpdate = [] := by
    by_cases hint : service.Spec.Autoscaling = none
    · rw [handleAutoscalePolicy_none h r service hint]
      simp
    · obtain ⟨existing, hl⟩ := hpol hint
      rw [handleAutoscalePolicy_found h r service existing hint hl]
      simp [Call.isCreate, Call.isUpdate]
  have ho : updateOwnerCell service = service := by
    simp [updateOwnerCell, howner]
  have hu : updateStatus h service =
      { result := none, err := none, calls := [Call.getService service.Namespace service.Name] } := by
    simp [updateStatus, hlatest, hcached]
  have hds : (handleDeployment h r service).service = service := by rw [hd]
  have hh := handle_of_ok h r service (by rw [hd]) (by rw [hds]; exact hp.1) (by rw [hds, hk])
  rw [hds, hk, hd, ho] at hh
  have hok : (handle h r service).err = none := by rw [hh]
  have hH := Handle_of_handle_ok h r key ns name service hkey hsvc hok
  rw [hh, hu] at hH
  rw [hH]
  have hc : (Call.getService ns name ::
      ([Call.getDeployment service.Namespace (r.ServiceDeploymentName service)] ++
        (handleAutoscalePolicy h r service).calls ++
        [Call.getK8sService service.Namespace (r.ServiceK8sServiceName service)] ++
        [Call.getService service.Namespace service.Name])).filter Call.isCreate = [] := by
    simp [List.filter_cons, List.filter_append, hp.2.1, Call.isCreate]
  have hup : (Call.getService ns name ::
      ([Call.getDeployment service.Namespace (r.ServiceDeploymentName service)] ++
        (handleAutoscalePolicy h r service).calls ++
        [Call.getK8sService service.Namespace (r.ServiceK8sServiceName service)] ++
        [Call.getService service.Namespace service.Name])).filter Call.isUpdate = [] := by
    simp [List.filter_cons, List.filter_append, hp.2.2, Call.isUpdate]
  refine ⟨rfl, hc, hup, ?_⟩
  rw [List.filter_eq_nil_iff] at hc hup ⊢
  intro c hmem
  have hmem1 : c ∈ Call.getService ns name ::
      ([Call.getDeployment service.Namespace (r.ServiceDeploymentName service)] ++
        (handleAutoscalePolicy h r service).calls ++
        [Call.getK8sService service.Namespace (r.ServiceK8sServiceName service)] ++
        [Call.getService service.Namespace service.Name]) := by
    rcases List.mem_append.1 hmem with hmem | hmem <;> exact hmem
  have h1 := hc c hmem1
  have h2 := hup c hmem1
  simp [h1, h2]

/-- C6 at a concrete input: the converged world of `ns/foo`. -/
theorem Handle_idempotent_witness :
    (Handle convergedHandler exampleResources "ns/foo").err = none ∧
    (Handle convergedHandler exampleResources "ns/foo").calls.filter Call.isCreate = [] ∧
    (Handle convergedHandler exampleResources "ns/foo").calls.filter Call.isUpdate = [] ∧
    ((Handle convergedHandler exampleResources "ns/foo").calls ++
      (Handle convergedHandler exampleResources "ns/foo").calls).filter
      (fun c => c.isCreate || c.isUpdate) = [] :=
  Handle_idempotent convergedHandler exampleResources "ns/foo" "ns" "foo" convergedService
    convergedService ⟨"ns", "foo-deployment", ⟨2⟩⟩ ⟨"ns", "foo-service"⟩ (by decide) rfl rfl
    (fun hint => absurd rfl hint) rfl rfl rfl rfl rfl (by decide)

/-- C7: abort on failure. For a Service found at the initial resolution: if
the Deployment step fails (its lookup fails with an error other than 'not
found', or its create call fails), `Handle` returns exactly that error and
its calls are the initial read and the calls of that step; if the Deployment
step succeeds and the AutoscalePolicy step (run because the Service declares
autoscaling intent) fails in the same way, `Handle` returns exactly that
error and its calls are those of steps 1 and 2; if steps 1 and 2 succeed and
the NetworkEndpoint step fails in the same way, `Handle` returns exactly
that error and its calls are those of steps 1 to 3. In each case the calls
of the earlier steps are kept, no call belongs to a later step, and no
Service update call is issued. -/
theorem Handle_abort_on_failure (h : serviceHandler) (r : Resources) (key ns name : String)
    (service : Service) (err : Error)
    (hkey : SplitMetaNamespaceKey key = some (ns, name))
    (hsvc : h.serviceLister ns name = .ok service) :
    (lookupOrCreateFails
        (h.deploymentLister service.Namespace (r.ServiceDeploymentName service))
        (h.createDeployment service.Namespace (r.CreateServiceDeployment service)) err →
      (Handle h r key).err = some err ∧
      (Handle h r key).calls = Call.getService ns name :: (handleDeployment h r service).calls ∧
      (∀ c ∈ (Handle h r key).calls, c.step ≤ 1) ∧
      (Handle h r key).calls.filter Call.isServiceUpdate = []) ∧
    ((handleDeployment h r service).err = none →
      (handleDeployment h r service).service.Spec.Autoscaling ≠ none →
      lookupOrCreateFails
        (h.autoscalePolicyLister (handleDeployment h r service).service.Namespace
          (r.ServiceAutoscalePolicyName (handleDeployment h r service).service))
        (h.createAutoscalePolicy (handleDeployment h r service).service.Namespace
          (r.CreateAutoscalePolicy (handleDeployment h r service).service)) err →
      (Handle h r key).err = some err ∧
      (Handle h r key).calls = Call.getService ns name ::
        ((handleDeployment h r service).calls ++
          (handleAutoscalePolicy h r (handleDeployment h r service).service).calls) ∧
      (∀ c ∈ (Handle h r key).calls, c.step ≤ 2) ∧
      (Handle h r key).calls.filter Call.isServiceUpdate = []) ∧
    ((handleDeployment h r service).err = none →
      (handleAutoscalePolicy h r (handleDeployment h r service).service).err = none →
      lookupOrCreateFails
        (h.k8sServiceLister (handleDeployment h r service).service.Namespace
          (r.ServiceK8sServiceName (handleDeployment h r service).service))
        (h.createK8sService (handleDeployment h r service).service.Namespace
          (r.CreateServiceK8sService (handleDeployment h r service).service)) err →
      (Handle h r key).err = some err ∧
      (Handle h r key).calls = Call.getService ns name ::
        ((handleDeployment h r service).calls ++
          (handleAutoscalePolicy h r (handleDeployment h r service).service).calls ++
          (handleK8sService h r (handleDeployment h r service).service).calls) ∧
      (∀ c ∈ (Handle h r key).calls, c.step ≤ 3) ∧
      (Handle h r key).calls.filter Call.isServiceUpdate = []) := by
  have hbound : ∀ (calls : List Call) (n : Nat), n ≤ 3 → (∀ c ∈ calls, c.step ≤ n) →
      calls.filter Call.isServiceUpdate = [] := by
    intro calls n hn hstep
    rw [List.filter_eq_nil_iff]
    intro c hc hpc
    have h4 := isServiceUpdate_step c hpc
    have hle := hstep c hc
    omega
  have hs1 := handleDeployment_step h r service
  have hs2 := handleAutoscalePolicy_step h r (handleDeployment h r service).service
  have hs3 := handleK8sService_step h r (handleDeployment h r service).service
  refine ⟨?_, ?_, ?_⟩
  · intro hf
    have h1 := handleDeployment_fails h r service err hf
    obtain ⟨he, hc⟩ := handle_of_step1_err h r service err h1
    rw [Handle_of_handle_err h r key ns name service err hkey hsvc he, hc]
    have hsteps : ∀ c ∈ Call.getService ns name :: (handleDeployment h r service).calls,
        c.step ≤ 1 := by
      intro c hmem
      rcases List.mem_cons.1 hmem with rfl | hmem
      · simp [Call.step]
      · rw [hs1 c hmem]
    exact ⟨rfl, rfl, hsteps, hbound _ 1 (by omega) hsteps⟩
  · intro h1 hint hf
    have h2 := handleAutoscalePolicy_fails h r _ err hint hf
    obtain ⟨he, hc⟩ := handle_of_step2_err h r service err h1 h2
    rw [Handle_of_handle_err h r key ns name service err hkey hsvc he, hc]
    have hsteps : ∀ c ∈ Call.getService ns name :: ((handleDeployment h r service).calls ++
        (handleAutoscalePolicy h r (handleDeployment h r service).service).calls),
        c.step ≤ 2 := by
      intro c hmem
      rcases List.mem_cons.1 hmem with rfl | hmem
      · simp [Call.step]
      · rcases List.mem_append.1 hmem with hmem | hmem
        · rw [hs1 c hmem]; omega
        · rw [hs2 c hmem]
    exact ⟨rfl, rfl, hsteps, hbound _ 2 (by omega) hsteps⟩
  · intro h1 h2 hf
    have h3 := handleK8sService_fails h r _ err hf
    obtain ⟨he, hc⟩ := handle_of_step3_err h r service err h1 h2 h3
    rw [Handle_of_handle_err h r key ns name service err hkey hsvc he, hc]
    have hsteps : ∀ c ∈ Call.getService ns name :: ((handleDeployment h r service).calls ++
        (handleAutoscalePolicy h r (handleDeployment h r service).service).calls ++
        (handleK8sService h r (handleDeployment h r service).service).calls),
        c.step ≤ 3 := by
      intro c hmem
      rcases List.mem_cons.1 hmem with rfl | hmem
      · simp [Call.step]
      · rcases List.mem_append.1 hmem with hmem | hmem
        · rcases List.mem_append.1 hmem with hmem | hmem
          · rw [hs1 c hmem]; omega
          · rw [hs2 c hmem]; omega
        · rw [hs3 c hmem]
    exact ⟨rfl, rfl, hsteps, hbound _ 3 (by omega) hsteps⟩

/-- C7 at concrete inputs: a Deployment lookup failing with a server error
for `ns/foo`, and an endpoint create failing for `ns/bar` after its
Deployment and its AutoscalePolicy were created. -/
theorem Handle_abort_on_failure_witness :
    ((Handle deploymentLookupFailsHandler exampleResources "ns/foo").err = some serverError ∧
      (Handle deploymentLookupFailsHandler exampleResources "ns/foo").calls =
        [Call.getService "ns" "foo", Call.getDeployment "ns" "foo-deployment"]) ∧
    ((Handle endpointCreateFailsHandler exampleResources "ns/bar").err = some serverError ∧
      (Handle endpointCreateFailsHandler exampleResources "ns/bar").calls =
        [Call.getService "ns" "bar",
         Call.getDeployment "ns" "bar-deployment",
         Call.createDeployment "ns" ⟨"ns", "bar-deployment", ⟨0⟩⟩,
         Call.getAutoscalePolicy "ns" "bar-autoscalepolicy",
         Call.createAutoscalePolicy "ns" ⟨"ns", "bar-autoscalepolicy", "explicit", ""⟩,
         Call.updateAutoscalePolicy "ns" ⟨"ns", "bar-autoscalepolicy", "explicit", "Ready"⟩,
         Call.getK8sService "ns" "bar-service",
         Call.createK8sService "ns" ⟨"ns", "bar-service"⟩]) :=
  ⟨match (Handle_abort_on_failure deploymentLookupFailsHandler exampleResources "ns/foo" "ns"
        "foo" fooService serverError (by decide) rfl).1 (Or.inl ⟨rfl, by decide⟩) with
   | ⟨herr, hcalls, _, _⟩ => ⟨herr, hcalls⟩,
   match (Handle_abort_on_failure endpointCreateFailsHandler exampleResources "ns/bar" "ns"
        "bar" barService serverError (by decide) rfl).2.2 (by decide) (by decide)
        (Or.inr ⟨notFoundError, rfl, by decide, rfl⟩) with
   | ⟨herr, hcalls, _, _⟩ => ⟨herr, hcalls⟩⟩

/-- C8: benign drop. A key that does not parse into (namespace, name) makes
`Handle` return no error without issuing any call; a well-formed key whose
Service is 'not found' at the initial resolution makes `Handle` return no
error, the cache read being its only call (no create, no update); any other
failure of the initial resolution is returned as the error. -/
theorem Handle_benign_drop (h : serviceHandler) (r : Resources) (key : String) :
    (SplitMetaNamespaceKey key = none →
      (Handle h r key).err = none ∧ (Handle h r key).calls = []) ∧
    (∀ ns name err, SplitMetaNamespaceKey key = some (ns, name) →
      h.serviceLister ns name = .error err →
      (IsNotFound err = true →
        (Handle h r key).err = none ∧
        (Handle h r key).calls = [Call.getService ns name] ∧
        (Handle h r key).calls.filter Call.isCreate = [] ∧
        (Handle h r key).calls.filter Call.isUpdate = []) ∧
      (IsNotFound err = false → (Handle h r key).err = some err)) := by
  constructor
  · intro hkey
    simp [Handle, hkey]
  · intro ns name err hkey hget
    constructor
    · intro hnf
      simp [Handle, hkey, hget, hnf, Call.isCreate, Call.isUpdate]
    · intro hnf
      simp [Handle, hkey, hget, hnf]

/-- C8 at concrete inputs: the key `a/b/c` has three parts, and the world
`missingHandler` does not hold `ns/foo`. -/
theorem Handle_benign_drop_witness :
    ((Handle freshHandler exampleResources "a/b/c").err = none ∧
      (Handle freshHandler exampleResources "a/b/c").calls = []) ∧
    ((Handle missingHandler exampleResources "ns/foo").err = none ∧
      (Handle missingHandler exampleResources "ns/foo").calls = [Call.getService "ns" "foo"] ∧
      (Handle missingHandler exampleResources "ns/foo").calls.filter Call.isCreate = [] ∧
      (Handle missingHandler exampleResources "ns/foo").calls.filter Call.isUpdate = []) :=
  ⟨(Handle_benign_drop freshHandler exampleResources "a/b/c").1 (by decide),
   ((Handle_benign_drop missingHandler exampleResources "ns/foo").2 "ns" "foo" notFoundError
      (by decide) rfl).1 (by decide)⟩

/-- C9: status mirroring. When `handle` succeeds there are a Deployment and
a NetworkEndpoint such that: the Deployment is the one found in the cache
under the deterministic name (and no Deployment create call is issued), or
the lookup reported 'not found' and it is the object returned by the single
Deployment create call; `Status.AvailableReplicas` of the resulting Service
is its `AvailableReplicas`; and likewise the endpoint is the one found in
the cache, or the one returned by the single endpoint create call after a
'not found', and `Status.HostName` is its name. A 'not found' child lookup
is not an error: followed by a successful create, the step returns no error
and its calls are the lookup and that one create. -/
theorem handle_status_mirroring (h : serviceHandler) (r : Resources) (service : Service) :
    ((handle h r service).err = none →
    ∃ deployment k8sService,
      ((h.deploymentLister service.Namespace (r.ServiceDeploymentName service) = .ok deployment ∧
        (handle h r service).calls.filter Call.isDeploymentCreate = []) ∨
       (∃ err, h.deploymentLister service.Namespace (r.ServiceDeploymentName service)
          = .error err ∧ IsNotFound err = true ∧
        h.createDeployment service.Namespace (r.CreateServiceDeployment service)
          = .ok deployment ∧
        (handle h r service).calls.filter Call.isDeploymentCreate =
          [Call.createDeployment service.Namespace (r.CreateServiceDeployment service)])) ∧
      (handle h r service).service.Status.AvailableReplicas
        = deployment.Status.AvailableReplicas ∧
      ((h.k8sServiceLister service.Namespace
          (r.ServiceK8sServiceName (withAvailableReplicas service deployment)) = .ok k8sService ∧
        (handle h r service).calls.filter Call.isK8sServiceCreate = []) ∨
       (∃ err, h.k8sServiceLister service.Namespace
          (r.ServiceK8sServiceName (withAvailableReplicas service deployment))
          = .error err ∧ IsNotFound err = true ∧
        h.createK8sService service.Namespace
          (r.CreateServiceK8sService (withAvailableReplicas service deployment))
          = .ok k8sService ∧
        (handle h r service).calls.filter Call.isK8sServiceCreate =
          [Call.createK8sService service.Namespace
            (r.CreateServiceK8sService (withAvailableReplicas service deployment))])) ∧
      (handle h r service).service.Status.HostName = k8sService.Name) ∧
    (∀ err deployment,
      h.deploymentLister service.Namespace (r.ServiceDeploymentName service) = .error err →
      IsNotFound err = true →
      h.createDeployment service.Namespace (r.CreateServiceDeployment service)
        = .ok deployment →
      (handleDeployment h r service).err = none ∧
      (handleDeployment h r service).service.Status.AvailableReplicas
        = deployment.Status.AvailableReplicas ∧
      (handleDeployment h r service).calls =
        [Call.getDeployment service.Namespace (r.ServiceDeploymentName service),
         Call.createDeployment service.Namespace (r.CreateServiceDeployment service)]) ∧
    (∀ err k8sService,
      h.k8sServiceLister service.Namespace (r.ServiceK8sServiceName service) = .error err →
      IsNotFound err = true →
      h.createK8sService service.Namespace (r.CreateServiceK8sService service)
        = .ok k8sService →
      (handleK8sService h r service).err = none ∧
      (handleK8sService h r service).service.Status.HostName = k8sService.Name ∧
      (handleK8sService h r service).calls =
        [Call.getK8sService service.Namespace (r.ServiceK8sServiceName service),
         Call.createK8sService service.Namespace (r.CreateServiceK8sService service)]) := by
  refine ⟨fun hok => ?_, ?_, ?_⟩
  rotate_left
  · intro err deployment hl hnf hc
    rw [handleDeployment_created h r service err deployment hl hnf hc]
    exact ⟨rfl, rfl, rfl⟩
  · intro err k8sService hl hnf hc
    rw [handleK8sService_created h r service err k8sService hl hnf hc]
    exact ⟨rfl, rfl, rfl⟩
  · obtain ⟨h1, h2, h3⟩ := handle_ok_steps h r service hok
    obtain ⟨deployment, hd, hs1⟩ := handleDeployment_ok h r service h1
    rw [hs1] at h3
    obtain ⟨k8sService, hk, hs3⟩ := handleK8sService_ok h r _ h3
    have hcalls := handle_of_ok h r service h1 h2 (by rw [hs1]; exact h3)
    rw [hs1] at hcalls
    have hp2d : (handleAutoscalePolicy h r (withAvailableReplicas service deployment)).calls.filter
        Call.isDeploymentCreate = [] :=
      filter_eq_nil_of_step _ 2 _ (fun c hc => by rw [isDeploymentCreate_step c hc]; decide)
        (handleAutoscalePolicy_step h r _)
    have hp2k : (handleAutoscalePolicy h r (withAvailableReplicas service deployment)).calls.filter
        Call.isK8sServiceCreate = [] :=
      filter_eq_nil_of_step _ 2 _ (fun c hc => by rw [isK8sServiceCreate_step c hc]; decide)
        (handleAutoscalePolicy_step h r _)
    have hp3d : (handleK8sService h r (withAvailableReplicas service deployment)).calls.filter
        Call.isDeploymentCreate = [] :=
      filter_eq_nil_of_step _ 3 _ (fun c hc => by rw [isDeploymentCreate_step c hc]; decide)
        (handleK8sService_step h r _)
    have hp1k : (handleDeployment h r service).calls.filter Call.isK8sServiceCreate = [] :=
      filter_eq_nil_of_step _ 1 _ (fun c hc => by rw [isK8sServiceCreate_step c hc]; decide)
        (handleDeployment_step h r _)
    refine ⟨deployment, k8sService, ?_, ?_, ?_, ?_⟩
    · rw [hcalls]
      simp only [List.filter_append, hp2d, hp3d, List.append_nil]
      rcases hd with ⟨hl, hc⟩ | ⟨err, hl, hnf, hcr, hc⟩
      · left
        refine ⟨hl, ?_⟩
        rw [hc]
        simp [Call.isDeploymentCreate]
      · right
        refine ⟨err, hl, hnf, hcr, ?_⟩
        rw [hc]
        simp [Call.isDeploymentCreate]
    · rw [hcalls]
      simp only []
      rw [(updateOwnerCell_other_fields _).1, hs3]
      rfl
    · rw [hcalls]
      simp only [List.filter_append, hp2k, hp1k, List.append_nil, List.nil_append]
      rcases hk with ⟨hl, hc⟩ | ⟨err, hl, hnf, hcr, hc⟩
      · left
        refine ⟨hl, ?_⟩
        rw [hc]
        simp [Call.isK8sServiceCreate]
      · right
        refine ⟨err, hl, hnf, hcr, ?_⟩
        rw [hc]
        simp [Call.isK8sServiceCreate, withAvailableReplicas]
    · rw [hcalls]
      simp only []
      rw [(updateOwnerCell_other_fields _).2.1, hs3]
      rfl

/-- C9 at a concrete input: in the world without children both children of
`ns/foo` are created, and the status mirrors the created objects. -/
theorem handle_status_mirroring_witness :
    (handle freshHandler exampleResources fooService).err = none ∧
    ∃ (deployment : Deployment) (k8sService : K8sService),
      (handle freshHandler exampleResources fooService).service.Status.AvailableReplicas
        = deployment.Status.AvailableReplicas ∧
      (handle freshHandler exampleResources fooService).service.Status.HostName
        = k8sService.Name :=
  ⟨by decide,
   match (handle_status_mirroring freshHandler exampleResources fooService).1 (by decide) with
   | ⟨deployment, k8sService, _, hreplicas, _, hhost⟩ =>
     ⟨deployment, k8sService, hreplicas, hhost⟩⟩

/-- C10: the AutoscalePolicy sync. Without autoscaling intent
`handleAutoscalePolicy` returns no error, issues no call at all and leaves
the Service unchanged. With intent, an update call occurs only when the
lookup reported 'not found' and the create call succeeded: it then follows
the create call and carries the created policy with Status "Ready"; when the
policy already exists, or when the create call fails, no update call is
issued. -/
theorem handleAutoscalePolicy_ready_after_create (h : serviceHandler) (r : Resources)
    (service : Service) :
    (service.Spec.Autoscaling = none →
      handleAutoscalePolicy h r service = { service := service, err := none, calls := [] }) ∧
    (∀ ns policy,
      Call.updateAutoscalePolicy ns policy ∈ (handleAutoscalePolicy h r service).calls →
      service.Spec.Autoscaling ≠ none ∧
      ∃ err created,
        h.autoscalePolicyLister service.Namespace (r.ServiceAutoscalePolicyName service)
          = .error err ∧ IsNotFound err = true ∧
        h.createAutoscalePolicy service.Namespace (r.CreateAutoscalePolicy service)
          = .ok created ∧
        policy = { created with Status := "Ready" } ∧ policy.Status = "Ready" ∧
        (handleAutoscalePolicy h r service).calls =
          [Call.getAutoscalePolicy service.Namespace (r.ServiceAutoscalePolicyName service),
           Call.createAutoscalePolicy service.Namespace (r.CreateAutoscalePolicy service),
           Call.updateAutoscalePolicy created.Namespace { created with Status := "Ready" }]) ∧
    (∀ existing,
      h.autoscalePolicyLister service.Namespace (r.ServiceAutoscalePolicyName service)
        = .ok existing →
      (handleAutoscalePolicy h r service).err = none ∧
      (handleAutoscalePolicy h r service).calls.filter Call.isCreate = [] ∧
      (handleAutoscalePolicy h r service).calls.filter Call.isUpdate = []) ∧
    (∀ err err2, service.Spec.Autoscaling ≠ none →
      h.autoscalePolicyLister service.Namespace (r.ServiceAutoscalePolicyName service)
        = .error err → IsNotFound err = true →
      h.createAutoscalePolicy service.Namespace (r.CreateAutoscalePolicy service)
        = .error err2 →
      (handleAutoscalePolicy h r service).err = some err2 ∧
      (handleAutoscalePolicy h r service).calls.filter Call.isUpdate = []) ∧
    (handleAutoscalePolicy h r service).service = service := by
  refine ⟨handleAutoscalePolicy_none h r service, ?_, ?_, ?_,
    handleAutoscalePolicy_service h r service⟩
  · intro ns policy hmem
    by_cases hint : service.Spec.Autoscaling = none
    · rw [handleAutoscalePolicy_none h r service hint] at hmem
      simp at hmem
    · refine ⟨hint, ?_⟩
      cases hl : h.autoscalePolicyLister service.Namespace
          (r.ServiceAutoscalePolicyName service) with
      | ok existing =>
        rw [handleAutoscalePolicy_found h r service existing hint hl] at hmem
        simp at hmem
      | error err =>
        cases hnf : IsNotFound err with
        | false =>
          rw [handleAutoscalePolicy_lookup_error h r service err hint hl hnf] at hmem
          simp at hmem
        | true =>
          cases hc : h.createAutoscalePolicy service.Namespace
              (r.CreateAutoscalePolicy service) with
          | error err2 =>
            rw [handleAutoscalePolicy_create_error h r service err err2 hint hl hnf hc] at hmem
            simp at hmem
          | ok created =>
            rw [handleAutoscalePolicy_created h r service err created hint hl hnf hc] at hmem ⊢
            simp at hmem
            refine ⟨err, created, rfl, hnf, rfl, hmem.2, ?_, rfl⟩
            rw [hmem.2]
  · intro existing hl
    by_cases hint : service.Spec.Autoscaling = none
    · rw [handleAutoscalePolicy_none h r service hint]
      simp
    · rw [handleAutoscalePolicy_found h r service existing hint hl]
      simp [Call.isCreate, Call.isUpdate]
  · intro err err2 hint hl hnf hc
    rw [handleAutoscalePolicy_create_error h r service err err2 hint hl hnf hc]
    simp [Call.isUpdate]

/-- C10 at concrete inputs: `ns/foo` declares no intent; `ns/bar` declares
one and has no policy, and the create call fails in one world and succeeds
in the other. -/
theorem handleAutoscalePolicy_ready_after_create_witness :
    handleAutoscalePolicy freshHandler exampleResources fooService
      = { service := fooService, err := none, calls := [] } ∧
    ((handleAutoscalePolicy policyCreateFailsHandler exampleResources barService).err
        = some serverError ∧
      (handleAutoscalePolicy policyCreateFailsHandler exampleResources barService).calls.filter
        Call.isUpdate = []) ∧
    (handleAutoscalePolicy freshBarHandler exampleResources barService).calls =
      [Call.getAutoscalePolicy "ns" "bar-autoscalepolicy",
       Call.createAutoscalePolicy "ns" ⟨"ns", "bar-autoscalepolicy", "explicit", ""⟩,
       Call.updateAutoscalePolicy "ns" ⟨"ns", "bar-autoscalepolicy", "explicit", "Ready"⟩] :=
  ⟨(handleAutoscalePolicy_ready_after_create freshHandler exampleResources fooService).1 rfl,
   (handleAutoscalePolicy_ready_after_create policyCreateFailsHandler exampleResources
      barService).2.2.2.1 notFoundError serverError (by decide) rfl (by decide) rfl,
   by decide⟩

end MeshController
